import Mathlib

/-!
AP_MotorsPulsing: saturation-aware mixer and output dispatch

A shallow embedding of `libraries/AP_Motors/AP_MotorsPulsing.cpp`.

Conventions of the embedding:

* C `float` values are idealised as exact rationals (`ℚ`): comparisons, sums,
  products and quotients are the exact ones, there is no rounding, no NaN and
  no infinity. A quotient by zero is `0` in `ℚ`; the only quotient of the
  source whose divisor can be zero is the one by the compensation gain, and the
  statements that speak about it assume a positive gain.
* Where the range of `float` matters (the bound on the mixer outputs), the
  mixer is embedded a second time over `F32`, which adds overflow to infinity
  and NaN to the exact finite values.
* Member variables of the object are fields of `State`, with the source's
  names. Values the source reads through accessor calls of the parent class
  (`get_throttle()`, `get_compensation_gain()`, `ahrs.get_gyro_latest()`) are
  fields as well, named after the accessor.
* Macros and parent-class functions that are declared outside
  `AP_MotorsPulsing.cpp` are fields of `Env` and stay uninterpreted.
* Calls into the signal layer (`rc_write`, `rc_write_angle`, `rc_set_freq`)
  are recorded, in program order, as a list of `Write` events or as the
  argument pair of the call; the setup calls of `init` are recorded as a list
  of `SetupCall` events.
-/

set_option linter.unusedVariables false

namespace AP_MotorsPulsing

/-! ## Data model -/

/-- The `limit` flags of the motors object. -/
@[ext]
structure Limit where
  roll : Bool
  pitch : Bool
  yaw : Bool
  throttle_lower : Bool
  throttle_upper : Bool
deriving DecidableEq, Repr

/-- The spool phases `SpoolState` that `output_to_motors` switches on. -/
inductive SpoolState where
  | SHUT_DOWN
  | GROUND_IDLE
  | SPOOLING_UP
  | THROTTLE_UNLIMITED
  | SPOOLING_DOWN
deriving DecidableEq, Repr

/-- The part of the object state that `AP_MotorsPulsing.cpp` reads or writes. -/
@[ext]
structure State where
  /-- demand and feed-forward biases -/
  _roll_in : ℚ
  _roll_in_ff : ℚ
  _pitch_in : ℚ
  _pitch_in_ff : ℚ
  _yaw_in : ℚ
  _yaw_in_ff : ℚ
  /-- value returned by `get_throttle()` -/
  get_throttle : ℚ
  /-- value returned by `get_compensation_gain()` -/
  get_compensation_gain : ℚ
  _throttle_avg_max : ℚ
  _throttle_thrust_max : ℚ
  /-- parameter `YAW_DIR` (1 normal, -1 reverse) -/
  _yaw_dir : ℤ
  /-- parameters `ROTOR_YAW_FF` and `GYRO_FF` -/
  _rotor_yaw_ff : ℚ
  _gyro_ff_gain : ℚ
  /-- value returned by `ahrs.get_gyro_latest()` -/
  ahrs_get_gyro_latest : ℚ × ℚ × ℚ
  limit : Limit
  /-- mixer outputs -/
  _throttle_out : ℚ
  _roll_action : ℚ
  _pitch_action : ℚ
  _rotor_thrust : ℚ
  _tail_thrust : ℚ
  /-- output state machine -/
  _spool_state : SpoolState
  _actuator : Nat → ℚ
  _speed_hz : Nat
  /-- frame setup: `motor_enabled[]`, `_mav_type` and the value last passed to
  `set_initialised_ok` -/
  motor_enabled : Nat → Bool
  _mav_type : Nat
  initialised_ok : Bool

/-- Macros and parent-class functions used by `AP_MotorsPulsing.cpp` whose
definitions live in other files of the library. They are kept abstract. -/
structure Env where
  AP_MOTORS_MOT_1 : Nat
  AP_MOTORS_MOT_2 : Nat
  AP_MOTORS_MOT_3 : Nat
  AP_MOTORS_MOT_4 : Nat
  AP_MOTORS_MOT_5 : Nat
  AP_MOTORS_MOT_6 : Nat
  AP_MOTORS_COAX_SERVO_INPUT_RANGE : ℚ
  output_to_pwm : ℚ → ℤ
  thrust_to_actuator : ℚ → ℚ
  /-- New value that `set_actuator_with_slew(actuator_output, input)` stores in
  the referenced `actuator_output` -/
  set_actuator_with_slew : ℚ → ℚ → ℚ
  actuator_spin_up_to_ground_idle : ℚ
  motor_mask_to_srv_channel_mask : Nat → Nat
  /-- value returned by `AP_MotorsMulticopter::get_motor_mask()` -/
  parent_get_motor_mask : Nat
  /-- enumerators and functions used by `init`; `motor_frame_class` and
  `motor_frame_type` values are represented by their enumerator numbers -/
  CH_1 : Nat
  MOTOR_FRAME_PULSING : Nat
  MAV_TYPE_QUADROTOR : Nat
  get_motor_function : Nat → Nat

/-- One call into the signal layer. `rc_write_angle` records the value of the
argument expression as the source computes it. -/
inductive Write where
  | rc_write (chan : Nat) (pwm : ℤ)
  | rc_write_angle (chan : Nat) (angle : ℚ)

/-- One setup call made by `init`: `add_motor_num(chan)` or
`SRV_Channels::set_angle(function, angle)`. -/
inductive SetupCall where
  | add_motor_num (chan : Nat)
  | set_angle (function : Nat) (angle : ℚ)

/-! ## Helpers from AP_Math and libc -/

/-- Modelled from the spec: `constrain_float` is defined in AP_Math, not in
this file; the spec calls it `clamp(x, low, high)`. Order of the tests as in
`constrain_value`: below `low` gives `low`, above `high` gives `high`. -/
def constrain_float (amt low high : ℚ) : ℚ :=
  if amt < low then low else if amt > high then high else amt

/-- Macro `MAX(a,b) ((a)>(b)?(a):(b))`. -/
def MAX (a b : ℚ) : ℚ := if a > b then a else b

/-- Absolute value `fabsf` of libc. -/
def fabsf (x : ℚ) : ℚ := |x|

/-- Value of `1U << n` as a `uint32_t`. -/
def bit32 (n : Nat) : Nat := (1 <<< n) % 2 ^ 32

/-! ## The mixer -/

/-- Gain-scaled roll demand: `(_roll_in + _roll_in_ff) * compensation_gain`. -/
def roll_thrust (s : State) : ℚ := (s._roll_in + s._roll_in_ff) * s.get_compensation_gain

/-- Gain-scaled pitch demand: `(_pitch_in + _pitch_in_ff) * compensation_gain`. -/
def pitch_thrust (s : State) : ℚ := (s._pitch_in + s._pitch_in_ff) * s.get_compensation_gain

/-- Gain-scaled yaw demand: `(_yaw_in + _yaw_in_ff) * compensation_gain`. -/
def yaw_thrust (s : State) : ℚ := (s._yaw_in + s._yaw_in_ff) * s.get_compensation_gain

/-- Gain-scaled throttle: `get_throttle() * compensation_gain`. -/
def throttle_thrust (s : State) : ℚ := s.get_throttle * s.get_compensation_gain

/-- Final values of the local variables of `output_armed_stabilizing`. -/
structure Locals where
  roll_thrust : ℚ
  pitch_thrust : ℚ
  yaw_thrust : ℚ
  throttle_thrust : ℚ
  throttle_avg_max : ℚ
  rp_scale : ℚ

/-- Body of `output_armed_stabilizing`, statement by statement; each
assignment to a local or to a flag gets a fresh name. Returns the final locals
together with the new object state. -/
def output_armed_stabilizing_body (s : State) : Locals × State :=
  let rp_scale0 : ℚ := 1
  let gyro_latest := s.ahrs_get_gyro_latest
  let compensation_gain := s.get_compensation_gain
  let roll_thrust := (s._roll_in + s._roll_in_ff) * compensation_gain
  let pitch_thrust := (s._pitch_in + s._pitch_in_ff) * compensation_gain
  let yaw_thrust0 := (s._yaw_in + s._yaw_in_ff) * compensation_gain
  let throttle_thrust0 := s.get_throttle * compensation_gain
  let throttle_avg_max0 := s._throttle_avg_max * compensation_gain
  let limit0 := s.limit
  -- if (throttle_thrust <= 0.0f)
  let throttle_thrust1 := if throttle_thrust0 ≤ 0 then 0 else throttle_thrust0
  let limit1 := if throttle_thrust0 ≤ 0 then { limit0 with throttle_lower := true } else limit0
  -- if (throttle_thrust >= _throttle_thrust_max)
  let throttle_thrust2 :=
    if throttle_thrust1 ≥ s._throttle_thrust_max then s._throttle_thrust_max else throttle_thrust1
  let limit2 :=
    if throttle_thrust1 ≥ s._throttle_thrust_max then { limit1 with throttle_upper := true }
    else limit1
  let throttle_avg_max1 := constrain_float throttle_avg_max0 throttle_thrust2 s._throttle_thrust_max
  let rp_thrust_max := MAX (fabsf roll_thrust) (fabsf pitch_thrust)
  -- if (rp_thrust_max >= 1.0f)
  let rp_scale1 :=
    if rp_thrust_max ≥ 1 then constrain_float (1 / rp_thrust_max) 0 1 else rp_scale0
  let limit3 :=
    if rp_thrust_max ≥ 1 then
      (if rp_scale1 < 1 then { limit2 with roll := true, pitch := true } else limit2)
    else limit2
  -- if (fabsf(yaw_thrust) > 1.0f)
  let yaw_thrust1 :=
    if fabsf yaw_thrust0 > 1 then constrain_float (1 / yaw_thrust0) (-1) 1 else yaw_thrust0
  let limit4 := if fabsf yaw_thrust0 > 1 then { limit3 with yaw := true } else limit3
  let throttle_out := throttle_avg_max1 / compensation_gain
  let roll_action := roll_thrust * rp_scale1
  let pitch_action := pitch_thrust * rp_scale1
  let rotor_thrust := throttle_out
  let tail_thrust := (s._yaw_dir : ℚ) * yaw_thrust1
  ({ roll_thrust := roll_thrust
     pitch_thrust := pitch_thrust
     yaw_thrust := yaw_thrust1
     throttle_thrust := throttle_thrust2
     throttle_avg_max := throttle_avg_max1
     rp_scale := rp_scale1 },
   { s with
     limit := limit4
     _throttle_out := throttle_out
     _roll_action := roll_action
     _pitch_action := pitch_action
     _rotor_thrust := rotor_thrust
     _tail_thrust := tail_thrust })

/-- Object state after the call `AP_MotorsPulsing::output_armed_stabilizing()`. -/
def output_armed_stabilizing (s : State) : State :=
  (output_armed_stabilizing_body s).2

/-! ## Channel configuration and output dispatch -/

/-- Method `AP_MotorsPulsing::set_update_rate`: the new state and the arguments
`(mask, freq)` of the call `rc_set_freq(mask, _speed_hz)`. -/
def set_update_rate (e : Env) (s : State) (speed_hz : Nat) : State × (Nat × Nat) :=
  let s1 := { s with _speed_hz := speed_hz }
  let mask := bit32 e.AP_MOTORS_MOT_5 ||| bit32 e.AP_MOTORS_MOT_6
  (s1, (mask, s1._speed_hz))

/-- The local `motor_mask` of `get_motor_mask`, before the mapping to servo channels. -/
def get_motor_mask_motor_mask (e : Env) : Nat :=
  bit32 e.AP_MOTORS_MOT_1 ||| bit32 e.AP_MOTORS_MOT_4

/-- Method `AP_MotorsPulsing::get_motor_mask`. -/
def get_motor_mask (e : Env) : Nat :=
  let motor_mask := get_motor_mask_motor_mask e
  let mask := e.motor_mask_to_srv_channel_mask motor_mask
  mask ||| e.parent_get_motor_mask

/-- Method `AP_MotorsPulsing::output_to_motors`: the new state and the calls into
the signal layer, in program order. -/
def output_to_motors (e : Env) (s : State) : State × List Write :=
  match s._spool_state with
  | SpoolState.SHUT_DOWN =>
    (s, [Write.rc_write e.AP_MOTORS_MOT_1 (e.output_to_pwm 0),
         Write.rc_write e.AP_MOTORS_MOT_4 (e.output_to_pwm 0),
         Write.rc_write_angle e.AP_MOTORS_MOT_2 0,
         Write.rc_write_angle e.AP_MOTORS_MOT_3 0])
  | SpoolState.GROUND_IDLE =>
    let a1 := Function.update s._actuator e.AP_MOTORS_MOT_1
      (e.set_actuator_with_slew (s._actuator e.AP_MOTORS_MOT_1) e.actuator_spin_up_to_ground_idle)
    let a2 := Function.update a1 e.AP_MOTORS_MOT_4
      (e.set_actuator_with_slew (a1 e.AP_MOTORS_MOT_4) e.actuator_spin_up_to_ground_idle)
    ({ s with _actuator := a2 },
     [Write.rc_write_angle e.AP_MOTORS_MOT_2 0,
      Write.rc_write_angle e.AP_MOTORS_MOT_3 0,
      Write.rc_write e.AP_MOTORS_MOT_1 (e.output_to_pwm (a2 e.AP_MOTORS_MOT_1)),
      Write.rc_write e.AP_MOTORS_MOT_4 (e.output_to_pwm (a2 e.AP_MOTORS_MOT_4))])
  | SpoolState.SPOOLING_UP | SpoolState.THROTTLE_UNLIMITED | SpoolState.SPOOLING_DOWN =>
    let a1 := Function.update s._actuator e.AP_MOTORS_MOT_1
      (e.set_actuator_with_slew (s._actuator e.AP_MOTORS_MOT_1)
        (e.thrust_to_actuator s._rotor_thrust))
    let a2 := Function.update a1 e.AP_MOTORS_MOT_4
      (e.set_actuator_with_slew (a1 e.AP_MOTORS_MOT_4) (e.thrust_to_actuator s._tail_thrust))
    ({ s with _actuator := a2 },
     [Write.rc_write_angle e.AP_MOTORS_MOT_2
        (s._pitch_action * e.AP_MOTORS_COAX_SERVO_INPUT_RANGE),
      Write.rc_write_angle e.AP_MOTORS_MOT_3
        (s._roll_action * e.AP_MOTORS_COAX_SERVO_INPUT_RANGE),
      Write.rc_write e.AP_MOTORS_MOT_1 (e.output_to_pwm (a2 e.AP_MOTORS_MOT_1)),
      Write.rc_write e.AP_MOTORS_MOT_4 (e.output_to_pwm (a2 e.AP_MOTORS_MOT_4))])

/-- Method `AP_MotorsPulsing::init`: the new state and the setup calls, in
program order (the loop over `i = 0..3` is unrolled). -/
def init (e : Env) (s : State) (frame_class frame_type : Nat) : State × List SetupCall :=
  let enabled1 := Function.update s.motor_enabled e.AP_MOTORS_MOT_1 true
  let enabled2 := Function.update enabled1 e.AP_MOTORS_MOT_4 true
  ({ s with
     motor_enabled := enabled2
     _mav_type := e.MAV_TYPE_QUADROTOR
     initialised_ok := decide (frame_class = e.MOTOR_FRAME_PULSING) },
   [SetupCall.add_motor_num (e.CH_1 + 0),
    SetupCall.add_motor_num (e.CH_1 + 1),
    SetupCall.add_motor_num (e.CH_1 + 2),
    SetupCall.add_motor_num (e.CH_1 + 3),
    SetupCall.set_angle (e.get_motor_function 1) e.AP_MOTORS_COAX_SERVO_INPUT_RANGE,
    SetupCall.set_angle (e.get_motor_function 2) e.AP_MOTORS_COAX_SERVO_INPUT_RANGE])

/-- Method `AP_MotorsPulsing::set_frame_class_and_type`. -/
def set_frame_class_and_type (e : Env) (s : State) (frame_class frame_type : Nat) : State :=
  { s with initialised_ok := decide (frame_class = e.MOTOR_FRAME_PULSING) }

/-- Method `AP_MotorsPulsing::_output_test_seq`: the state after the call and the
calls into the signal layer. `motor_seq` is a `uint8_t`, `pwm` an `int16_t`. -/
def _output_test_seq (e : Env) (s : State) (motor_seq : Nat) (pwm : ℤ) : State × List Write :=
  match motor_seq with
  | 1 => (s, [Write.rc_write e.AP_MOTORS_MOT_1 pwm])
  | 2 => (s, [Write.rc_write e.AP_MOTORS_MOT_2 pwm])
  | 3 => (s, [Write.rc_write e.AP_MOTORS_MOT_3 pwm])
  | 4 => (s, [Write.rc_write e.AP_MOTORS_MOT_4 pwm])
  | _ => (s, [])

/-! ## The mixer over range-enforced floats

The embedding above takes `float` as `ℚ` and so cannot overflow. This section
repeats `output_armed_stabilizing` over a value type that keeps the range of a
binary32 `float`: a finite value, an infinity or NaN. Finite results are still
exact (rounding is idealised) and signed zeros are not distinguished, but a
finite result at or beyond the overflow threshold becomes an infinity, and the
special values follow IEEE 754. -/

/-- Value of a C `float` with its range enforced: finite (kept exact), plus or
minus infinity, or NaN. -/
inductive F32 where
  | fin (q : ℚ)
  | inf (negative : Bool)
  | nan
deriving DecidableEq, Repr

/-- Smallest magnitude that binary32 round-to-nearest turns into an infinity:
`FLT_MAX` plus half a unit in the last place, `2^128 - 2^103`. -/
def F32.overflow_bound : ℚ := 2 ^ 128 - 2 ^ 103

/-- Result of an arithmetic operation whose exact value is `q`. -/
def F32.round (q : ℚ) : F32 :=
  if |q| ≥ F32.overflow_bound then F32.inf (decide (q < 0)) else F32.fin q

/-- Float addition `a + b`. -/
def F32.add : F32 → F32 → F32
  | F32.nan, _ => F32.nan
  | _, F32.nan => F32.nan
  | F32.inf a, F32.inf b => if a = b then F32.inf a else F32.nan
  | F32.inf a, F32.fin _ => F32.inf a
  | F32.fin _, F32.inf b => F32.inf b
  | F32.fin a, F32.fin b => F32.round (a + b)

/-- Float multiplication `a * b`. -/
def F32.mul : F32 → F32 → F32
  | F32.nan, _ => F32.nan
  | _, F32.nan => F32.nan
  | F32.inf a, F32.inf b => F32.inf (xor a b)
  | F32.inf a, F32.fin q => if q = 0 then F32.nan else F32.inf (xor a (decide (q < 0)))
  | F32.fin q, F32.inf b => if q = 0 then F32.nan else F32.inf (xor (decide (q < 0)) b)
  | F32.fin a, F32.fin b => F32.round (a * b)

/-- Float division `a / b`. -/
def F32.div : F32 → F32 → F32
  | F32.nan, _ => F32.nan
  | _, F32.nan => F32.nan
  | F32.inf _, F32.inf _ => F32.nan
  | F32.inf a, F32.fin q => F32.inf (xor a (decide (q < 0)))
  | F32.fin _, F32.inf _ => F32.fin 0
  | F32.fin a, F32.fin b =>
    if b = 0 then (if a = 0 then F32.nan else F32.inf (decide (a < 0)))
    else F32.round (a / b)

/-- Float comparison `a < b`; false when either side is NaN. -/
def F32.lt : F32 → F32 → Bool
  | F32.nan, _ => false
  | _, F32.nan => false
  | F32.fin a, F32.fin b => decide (a < b)
  | F32.fin _, F32.inf negative => !negative
  | F32.inf negative, F32.fin _ => negative
  | F32.inf a, F32.inf b => a && !b

/-- Float comparison `a <= b`; false when either side is NaN. -/
def F32.le : F32 → F32 → Bool
  | F32.nan, _ => false
  | _, F32.nan => false
  | F32.fin a, F32.fin b => decide (a ≤ b)
  | F32.fin _, F32.inf negative => !negative
  | F32.inf negative, F32.fin _ => negative
  | F32.inf a, F32.inf b => a || !b

/-- Float comparison `a > b`. -/
def F32.gt (a b : F32) : Bool := F32.lt b a

/-- Float comparison `a >= b`. -/
def F32.ge (a b : F32) : Bool := F32.le b a

/-- Absolute value `fabsf` of libc on range-enforced floats. -/
def F32.fabsf : F32 → F32
  | F32.fin q => F32.fin |q|
  | F32.inf _ => F32.inf false
  | F32.nan => F32.nan

/-- Macro `MAX(a,b) ((a)>(b)?(a):(b))` on range-enforced floats. -/
def F32.MAX (a b : F32) : F32 := if F32.gt a b then a else b

/-- Modelled from the spec: `constrain_float` of AP_Math, the spec's
`clamp(x, low, high)`, on range-enforced floats, with the same order of tests
as the rational version. What it returns for a NaN argument is not used by any
statement below. -/
def F32.constrain_float (amt low high : F32) : F32 :=
  if F32.lt amt low then low else if F32.gt amt high then high else amt

/-- The members that `output_armed_stabilizing` reads or writes, with float
members as range-enforced floats. Names as in `State`. -/
structure F32.State where
  _roll_in : F32
  _roll_in_ff : F32
  _pitch_in : F32
  _pitch_in_ff : F32
  _yaw_in : F32
  _yaw_in_ff : F32
  get_throttle : F32
  get_compensation_gain : F32
  _throttle_avg_max : F32
  _throttle_thrust_max : F32
  _yaw_dir : ℤ
  ahrs_get_gyro_latest : F32 × F32 × F32
  limit : Limit
  _throttle_out : F32
  _roll_action : F32
  _pitch_action : F32
  _rotor_thrust : F32
  _tail_thrust : F32

/-- Body of `output_armed_stabilizing` over range-enforced floats, statement by
statement as in `output_armed_stabilizing_body`: the object state after the
call. -/
def F32.output_armed_stabilizing (s : F32.State) : F32.State :=
  let rp_scale0 : F32 := F32.fin 1
  let gyro_latest := s.ahrs_get_gyro_latest
  let compensation_gain := s.get_compensation_gain
  let roll_thrust := F32.mul (F32.add s._roll_in s._roll_in_ff) compensation_gain
  let pitch_thrust := F32.mul (F32.add s._pitch_in s._pitch_in_ff) compensation_gain
  let yaw_thrust0 := F32.mul (F32.add s._yaw_in s._yaw_in_ff) compensation_gain
  let throttle_thrust0 := F32.mul s.get_throttle compensation_gain
  let throttle_avg_max0 := F32.mul s._throttle_avg_max compensation_gain
  let limit0 := s.limit
  -- if (throttle_thrust <= 0.0f)
  let throttle_thrust1 :=
    if F32.le throttle_thrust0 (F32.fin 0) then F32.fin 0 else throttle_thrust0
  let limit1 :=
    if F32.le throttle_thrust0 (F32.fin 0) then { limit0 with throttle_lower := true }
    else limit0
  -- if (throttle_thrust >= _throttle_thrust_max)
  let throttle_thrust2 :=
    if F32.ge throttle_thrust1 s._throttle_thrust_max then s._throttle_thrust_max
    else throttle_thrust1
  let limit2 :=
    if F32.ge throttle_thrust1 s._throttle_thrust_max then { limit1 with throttle_upper := true }
    else limit1
  let throttle_avg_max1 :=
    F32.constrain_float throttle_avg_max0 throttle_thrust2 s._throttle_thrust_max
  let rp_thrust_max := F32.MAX (F32.fabsf roll_thrust) (F32.fabsf pitch_thrust)
  -- if (rp_thrust_max >= 1.0f)
  let rp_scale1 :=
    if F32.ge rp_thrust_max (F32.fin 1) then
      F32.constrain_float (F32.div (F32.fin 1) rp_thrust_max) (F32.fin 0) (F32.fin 1)
    else rp_scale0
  let limit3 :=
    if F32.ge rp_thrust_max (F32.fin 1) then
      (if F32.lt rp_scale1 (F32.fin 1) then { limit2 with roll := true, pitch := true }
       else limit2)
    else limit2
  -- if (fabsf(yaw_thrust) > 1.0f)
  let yaw_thrust1 :=
    if F32.gt (F32.fabsf yaw_thrust0) (F32.fin 1) then
      F32.constrain_float (F32.div (F32.fin 1) yaw_thrust0) (F32.fin (-1)) (F32.fin 1)
    else yaw_thrust0
  let limit4 :=
    if F32.gt (F32.fabsf yaw_thrust0) (F32.fin 1) then { limit3 with yaw := true } else limit3
  let throttle_out := F32.div throttle_avg_max1 compensation_gain
  let roll_action := F32.mul roll_thrust rp_scale1
  let pitch_action := F32.mul pitch_thrust rp_scale1
  let rotor_thrust := throttle_out
  let tail_thrust := F32.mul (F32.fin (s._yaw_dir : ℚ)) yaw_thrust1
  { s with
    limit := limit4
    _throttle_out := throttle_out
    _roll_action := roll_action
    _pitch_action := pitch_action
    _rotor_thrust := rotor_thrust
    _tail_thrust := tail_thrust }

/-- Gain-scaled roll demand over range-enforced floats. -/
def F32.roll_thrust (s : F32.State) : F32 :=
  F32.mul (F32.add s._roll_in s._roll_in_ff) s.get_compensation_gain

/-- Gain-scaled pitch demand over range-enforced floats. -/
def F32.pitch_thrust (s : F32.State) : F32 :=
  F32.mul (F32.add s._pitch_in s._pitch_in_ff) s.get_compensation_gain

/-- Gain-scaled yaw demand over range-enforced floats. -/
def F32.yaw_thrust (s : F32.State) : F32 :=
  F32.mul (F32.add s._yaw_in s._yaw_in_ff) s.get_compensation_gain

/-- The range-enforced counterpart of `State.demo`: finite demand, throttle and
gain, zero feed-forward, throttle ceiling 1, normal yaw direction, flags clear. -/
def F32.State.demo (roll pitch yaw throttle gain : ℚ) : F32.State :=
  { _roll_in := F32.fin roll, _roll_in_ff := F32.fin 0
    _pitch_in := F32.fin pitch, _pitch_in_ff := F32.fin 0
    _yaw_in := F32.fin yaw, _yaw_in_ff := F32.fin 0
    get_throttle := F32.fin throttle, get_compensation_gain := F32.fin gain
    _throttle_avg_max := F32.fin 0, _throttle_thrust_max := F32.fin 1
    _yaw_dir := 1
    ahrs_get_gyro_latest := (F32.fin 0, F32.fin 0, F32.fin 0)
    limit := { roll := false, pitch := false, yaw := false,
               throttle_lower := false, throttle_upper := false }
    _throttle_out := F32.fin 0, _roll_action := F32.fin 0, _pitch_action := F32.fin 0
    _rotor_thrust := F32.fin 0, _tail_thrust := F32.fin 0 }

/-! ## Concrete inputs used to exercise the statements -/

/-- All flags clear. -/
def Limit.clear : Limit :=
  { roll := false, pitch := false, yaw := false, throttle_lower := false, throttle_upper := false }

/-- A state with zero demand, unit gain, throttle ceiling 1 and cleared flags. -/
def State.zero : State :=
  { _roll_in := 0, _roll_in_ff := 0, _pitch_in := 0, _pitch_in_ff := 0
    _yaw_in := 0, _yaw_in_ff := 0
    get_throttle := 0, get_compensation_gain := 1
    _throttle_avg_max := 0, _throttle_thrust_max := 1
    _yaw_dir := 1, _rotor_yaw_ff := 0, _gyro_ff_gain := 0
    ahrs_get_gyro_latest := (0, 0, 0)
    limit := Limit.clear
    _throttle_out := 0, _roll_action := 0, _pitch_action := 0
    _rotor_thrust := 0, _tail_thrust := 0
    _spool_state := SpoolState.SHUT_DOWN
    _actuator := fun _ => 0
    _speed_hz := 0
    motor_enabled := fun _ => false
    _mav_type := 0
    initialised_ok := false }

/-- The state `State.zero` with the given roll, pitch and yaw demand, throttle
and compensation gain. -/
def State.demo (roll pitch yaw throttle gain : ℚ) : State :=
  { State.zero with
    _roll_in := roll, _pitch_in := pitch, _yaw_in := yaw
    get_throttle := throttle, get_compensation_gain := gain }

/-- The state `s` with other values of `_rotor_yaw_ff` and `_gyro_ff_gain` and
another reading of `ahrs.get_gyro_latest()`; everything else as in `s`. -/
def State.with_feed_forward (s : State) (rotor_yaw_ff gyro_ff_gain : ℚ)
    (gyro : ℚ × ℚ × ℚ) : State :=
  { s with
    _rotor_yaw_ff := rotor_yaw_ff
    _gyro_ff_gain := gyro_ff_gain
    ahrs_get_gyro_latest := gyro }

/-- The channel numbering 0..5 with linear conversions, as a sample environment. -/
def Env.sample : Env :=
  { AP_MOTORS_MOT_1 := 0, AP_MOTORS_MOT_2 := 1, AP_MOTORS_MOT_3 := 2
    AP_MOTORS_MOT_4 := 3, AP_MOTORS_MOT_5 := 4, AP_MOTORS_MOT_6 := 5
    AP_MOTORS_COAX_SERVO_INPUT_RANGE := 4500
    output_to_pwm := fun a => 1000 + ⌊1000 * a⌋
    thrust_to_actuator := fun t => t
    set_actuator_with_slew := fun _ t => t
    actuator_spin_up_to_ground_idle := 0
    motor_mask_to_srv_channel_mask := fun m => m
    parent_get_motor_mask := 0
    CH_1 := 0
    MOTOR_FRAME_PULSING := 16
    MAV_TYPE_QUADROTOR := 2
    get_motor_function := fun n => 32 + n }

/-- The sample environment with a slew limiter that moves by at most 1/10 per
call, a ground-idle target of 1/10 and the identity as thrust curve. -/
def Env.slewing : Env :=
  { Env.sample with
    set_actuator_with_slew := fun cur tgt =>
      if tgt > cur then min tgt (cur + 1/10) else max tgt (cur - 1/10)
    actuator_spin_up_to_ground_idle := 1/10 }

/-! ## Basic facts about the helpers -/

lemma MAX_eq_max (a b : ℚ) : MAX a b = max a b := by
  unfold MAX
  split_ifs with h
  · exact (max_eq_left h.le).symm
  · exact (max_eq_right (not_lt.mp h)).symm

lemma constrain_float_eq_max_min (amt low high : ℚ) (h : low ≤ high) :
    constrain_float amt low high = max low (min amt high) := by
  unfold constrain_float
  split_ifs with h1 h2
  · rw [max_eq_left]
    exact min_le_of_left_le h1.le
  · rw [min_eq_right h2.le, max_eq_right h]
  · rw [min_eq_left (not_lt.mp h2), max_eq_right (not_lt.mp h1)]

lemma constrain_float_mem (amt low high : ℚ) (h : low ≤ high) :
    low ≤ constrain_float amt low high ∧ constrain_float amt low high ≤ high := by
  unfold constrain_float
  split_ifs with h1 h2
  · exact ⟨le_refl _, h⟩
  · exact ⟨h, le_refl _⟩
  · exact ⟨not_lt.mp h1, not_lt.mp h2⟩

lemma constrain_float_of_mem (amt low high : ℚ) (h1 : low ≤ amt) (h2 : amt ≤ high) :
    constrain_float amt low high = amt := by
  unfold constrain_float
  rw [if_neg (not_lt.mpr h1), if_neg (not_lt.mpr h2)]

/-! ## The locals and outputs of the mixer in closed form -/

/-- The local `rp_thrust_max`. -/
lemma rp_thrust_max_eq (s : State) :
    MAX (fabsf (roll_thrust s)) (fabsf (pitch_thrust s))
      = max |roll_thrust s| |pitch_thrust s| := by
  rw [MAX_eq_max]; rfl

/-- The final local `rp_scale`. -/
lemma body_rp_scale (s : State) :
    (output_armed_stabilizing_body s).1.rp_scale
      = if 1 ≤ max |roll_thrust s| |pitch_thrust s|
        then constrain_float (1 / max |roll_thrust s| |pitch_thrust s|) 0 1 else 1 := by
  rw [← rp_thrust_max_eq]; rfl

lemma out_roll_action (s : State) :
    (output_armed_stabilizing s)._roll_action
      = roll_thrust s * (output_armed_stabilizing_body s).1.rp_scale := rfl

lemma out_pitch_action (s : State) :
    (output_armed_stabilizing s)._pitch_action
      = pitch_thrust s * (output_armed_stabilizing_body s).1.rp_scale := rfl

/-- With a saturated roll/pitch demand the scale is the reciprocal of the larger magnitude. -/
lemma body_rp_scale_of_sat (s : State) (hm : 1 ≤ max |roll_thrust s| |pitch_thrust s|) :
    (output_armed_stabilizing_body s).1.rp_scale = 1 / max |roll_thrust s| |pitch_thrust s| := by
  rw [body_rp_scale, if_pos hm]
  have hpos : (0 : ℚ) < max |roll_thrust s| |pitch_thrust s| := lt_of_lt_of_le one_pos hm
  apply constrain_float_of_mem
  · positivity
  · rw [div_le_iff₀ hpos]; linarith

lemma body_rp_scale_of_unsat (s : State) (hm : max |roll_thrust s| |pitch_thrust s| < 1) :
    (output_armed_stabilizing_body s).1.rp_scale = 1 := by
  rw [body_rp_scale, if_neg (not_le.mpr hm)]

lemma rp_scale_lt_one_iff (s : State) (hm : 1 ≤ max |roll_thrust s| |pitch_thrust s|) :
    (output_armed_stabilizing_body s).1.rp_scale < 1 ↔ 1 < max |roll_thrust s| |pitch_thrust s| := by
  rw [body_rp_scale_of_sat s hm]
  have hpos : (0 : ℚ) < max |roll_thrust s| |pitch_thrust s| := lt_of_lt_of_le one_pos hm
  rw [div_lt_iff₀ hpos, one_mul]

lemma out_limit_roll (s : State) :
    (output_armed_stabilizing s).limit.roll
      = (s.limit.roll || decide (1 < max |roll_thrust s| |pitch_thrust s|)) := by
  have key : (output_armed_stabilizing s).limit.roll
      = if MAX (fabsf (roll_thrust s)) (fabsf (pitch_thrust s)) ≥ 1 then
          (if (output_armed_stabilizing_body s).1.rp_scale < 1 then true else s.limit.roll)
        else s.limit.roll := by
    simp only [output_armed_stabilizing, output_armed_stabilizing_body, roll_thrust, pitch_thrust]
    split_ifs <;> rfl
  rw [key, rp_thrust_max_eq]
  by_cases hm : 1 ≤ max |roll_thrust s| |pitch_thrust s|
  · rw [if_pos hm]
    by_cases h1 : 1 < max |roll_thrust s| |pitch_thrust s|
    · rw [if_pos ((rp_scale_lt_one_iff s hm).mpr h1)]; simp [h1]
    · rw [if_neg (fun h => h1 ((rp_scale_lt_one_iff s hm).mp h))]; simp [h1]
  · rw [if_neg hm]
    have : ¬ 1 < max |roll_thrust s| |pitch_thrust s| := fun h => hm h.le
    simp [this]

lemma out_limit_pitch (s : State) :
    (output_armed_stabilizing s).limit.pitch
      = (s.limit.pitch || decide (1 < max |roll_thrust s| |pitch_thrust s|)) := by
  have key : (output_armed_stabilizing s).limit.pitch
      = if MAX (fabsf (roll_thrust s)) (fabsf (pitch_thrust s)) ≥ 1 then
          (if (output_armed_stabilizing_body s).1.rp_scale < 1 then true else s.limit.pitch)
        else s.limit.pitch := by
    simp only [output_armed_stabilizing, output_armed_stabilizing_body, roll_thrust, pitch_thrust]
    split_ifs <;> rfl
  rw [key, rp_thrust_max_eq]
  by_cases hm : 1 ≤ max |roll_thrust s| |pitch_thrust s|
  · rw [if_pos hm]
    by_cases h1 : 1 < max |roll_thrust s| |pitch_thrust s|
    · rw [if_pos ((rp_scale_lt_one_iff s hm).mpr h1)]; simp [h1]
    · rw [if_neg (fun h => h1 ((rp_scale_lt_one_iff s hm).mp h))]; simp [h1]
  · rw [if_neg hm]
    have : ¬ 1 < max |roll_thrust s| |pitch_thrust s| := fun h => hm h.le
    simp [this]

lemma out_limit_yaw (s : State) :
    (output_armed_stabilizing s).limit.yaw = (s.limit.yaw || decide (1 < |yaw_thrust s|)) := by
  have key : (output_armed_stabilizing s).limit.yaw
      = if fabsf (yaw_thrust s) > 1 then true else s.limit.yaw := by
    simp only [output_armed_stabilizing, output_armed_stabilizing_body, yaw_thrust]
    split_ifs <;> rfl
  rw [key]
  unfold fabsf
  by_cases h : 1 < |yaw_thrust s|
  · rw [if_pos h]; simp [h]
  · rw [if_neg h]; simp [h]

lemma out_limit_throttle_lower (s : State) :
    (output_armed_stabilizing s).limit.throttle_lower
      = (s.limit.throttle_lower || decide (throttle_thrust s ≤ 0)) := by
  have key : (output_armed_stabilizing s).limit.throttle_lower
      = if throttle_thrust s ≤ 0 then true else s.limit.throttle_lower := by
    simp only [output_armed_stabilizing, output_armed_stabilizing_body, throttle_thrust]
    split_ifs <;> rfl
  rw [key]
  by_cases h : throttle_thrust s ≤ 0
  · rw [if_pos h]; simp [h]
  · rw [if_neg h]; simp [h]

lemma out_limit_throttle_upper (s : State) :
    (output_armed_stabilizing s).limit.throttle_upper
      = (s.limit.throttle_upper
          || decide (s._throttle_thrust_max ≤ (if throttle_thrust s ≤ 0 then 0 else throttle_thrust s))) := by
  have key : (output_armed_stabilizing s).limit.throttle_upper
      = if (if throttle_thrust s ≤ 0 then 0 else throttle_thrust s) ≥ s._throttle_thrust_max
        then true else s.limit.throttle_upper := by
    simp only [output_armed_stabilizing, output_armed_stabilizing_body, throttle_thrust]
    split_ifs <;> rfl
  rw [key]
  by_cases h : s._throttle_thrust_max ≤ (if throttle_thrust s ≤ 0 then 0 else throttle_thrust s)
  · rw [if_pos h]; simp [h]
  · rw [if_neg h]; simp [h]

/-- The final local `throttle_thrust`. -/
lemma body_throttle_thrust (s : State) :
    (output_armed_stabilizing_body s).1.throttle_thrust
      = if (if throttle_thrust s ≤ 0 then 0 else throttle_thrust s) ≥ s._throttle_thrust_max
        then s._throttle_thrust_max
        else (if throttle_thrust s ≤ 0 then 0 else throttle_thrust s) := rfl

lemma body_throttle_thrust_eq_clamp (s : State) (hmax : 0 ≤ s._throttle_thrust_max) :
    (output_armed_stabilizing_body s).1.throttle_thrust
      = max 0 (min (throttle_thrust s) s._throttle_thrust_max) := by
  rw [body_throttle_thrust]
  by_cases h0 : throttle_thrust s ≤ 0
  · simp only [if_pos h0]
    rw [max_eq_left (min_le_of_left_le h0)]
    split_ifs with h1
    · exact le_antisymm h1 hmax
    · rfl
  · simp only [if_neg h0]
    have h0' : 0 < throttle_thrust s := not_le.mp h0
    split_ifs with h1
    · rw [min_eq_right h1, max_eq_right hmax]
    · have h1' : throttle_thrust s < s._throttle_thrust_max := not_le.mp h1
      rw [min_eq_left h1'.le, max_eq_right h0'.le]

/-- The final local `yaw_thrust`. -/
lemma body_yaw_thrust (s : State) :
    (output_armed_stabilizing_body s).1.yaw_thrust
      = if 1 < |yaw_thrust s| then constrain_float (1 / yaw_thrust s) (-1) 1 else yaw_thrust s := rfl

lemma out_tail_thrust (s : State) :
    (output_armed_stabilizing s)._tail_thrust
      = (s._yaw_dir : ℚ) * (output_armed_stabilizing_body s).1.yaw_thrust := rfl

/-- The final local `throttle_avg_max`. -/
lemma body_throttle_avg_max (s : State) :
    (output_armed_stabilizing_body s).1.throttle_avg_max
      = constrain_float (s._throttle_avg_max * s.get_compensation_gain)
          (output_armed_stabilizing_body s).1.throttle_thrust s._throttle_thrust_max := rfl

lemma out_throttle_out (s : State) :
    (output_armed_stabilizing s)._throttle_out
      = (output_armed_stabilizing_body s).1.throttle_avg_max / s.get_compensation_gain := rfl

lemma out_rotor_thrust (s : State) :
    (output_armed_stabilizing s)._rotor_thrust = (output_armed_stabilizing s)._throttle_out := rfl

/-- All five flags after a pass: each is its value before the pass or-ed with a
condition on the demand, the gain and the ceiling. -/
lemma out_limit_eq (s : State) :
    (output_armed_stabilizing s).limit =
      { roll := s.limit.roll || decide (1 < max |roll_thrust s| |pitch_thrust s|)
        pitch := s.limit.pitch || decide (1 < max |roll_thrust s| |pitch_thrust s|)
        yaw := s.limit.yaw || decide (1 < |yaw_thrust s|)
        throttle_lower := s.limit.throttle_lower || decide (throttle_thrust s ≤ 0)
        throttle_upper := s.limit.throttle_upper
          || decide (s._throttle_thrust_max
                ≤ (if throttle_thrust s ≤ 0 then 0 else throttle_thrust s)) } := by
  ext
  · exact out_limit_roll s
  · exact out_limit_pitch s
  · exact out_limit_yaw s
  · exact out_limit_throttle_lower s
  · exact out_limit_throttle_upper s

/-- A second pass over the state left by a first pass changes nothing. -/
lemma out_idempotent (s : State) :
    output_armed_stabilizing (output_armed_stabilizing s) = output_armed_stabilizing s := by
  have hl : (output_armed_stabilizing (output_armed_stabilizing s)).limit
      = (output_armed_stabilizing s).limit := by
    rw [out_limit_eq (output_armed_stabilizing s)]
    have e1 : roll_thrust (output_armed_stabilizing s) = roll_thrust s := rfl
    have e2 : pitch_thrust (output_armed_stabilizing s) = pitch_thrust s := rfl
    have e3 : yaw_thrust (output_armed_stabilizing s) = yaw_thrust s := rfl
    have e4 : throttle_thrust (output_armed_stabilizing s) = throttle_thrust s := rfl
    have e5 : (output_armed_stabilizing s)._throttle_thrust_max = s._throttle_thrust_max := rfl
    rw [e1, e2, e3, e4, e5, out_limit_eq s]
    ext <;> simp [Bool.or_assoc]
  apply State.ext
  all_goals first | exact hl | rfl

/-- The scaled roll and pitch demand never exceed the common scale bound. -/
lemma abs_mul_rp_scale_le_one (s : State) (x : ℚ)
    (hx : |x| ≤ max |roll_thrust s| |pitch_thrust s|) :
    |x * (output_armed_stabilizing_body s).1.rp_scale| ≤ 1 := by
  by_cases hm : 1 ≤ max |roll_thrust s| |pitch_thrust s|
  · have hpos : (0 : ℚ) < max |roll_thrust s| |pitch_thrust s| := lt_of_lt_of_le one_pos hm
    rw [body_rp_scale_of_sat s hm, mul_one_div, abs_div, abs_of_pos hpos, div_le_iff₀ hpos]
    linarith
  · rw [body_rp_scale_of_unsat s (not_le.mp hm), mul_one]
    exact le_trans hx (not_le.mp hm).le

/-- The final local `yaw_thrust` has magnitude at most 1. -/
lemma abs_body_yaw_thrust_le_one (s : State) :
    |(output_armed_stabilizing_body s).1.yaw_thrust| ≤ 1 := by
  rw [body_yaw_thrust]
  split_ifs with h
  · exact abs_le.mpr (constrain_float_mem _ _ _ (by norm_num))
  · exact not_lt.mp h

/-- Bits of `1U << a | 1U << b` for shift counts below 32. -/
lemma testBit_bit32_or (a b i : Nat) (ha : a < 32) (hb : b < 32) :
    (bit32 a ||| bit32 b).testBit i = true ↔ i = a ∨ i = b := by
  have e : ∀ n, n < 32 → bit32 n = 2 ^ n := by
    intro n hn
    unfold bit32
    rw [Nat.one_shiftLeft]
    exact Nat.mod_eq_of_lt (Nat.pow_lt_pow_right (by norm_num) hn)
  rw [e a ha, e b hb, Nat.testBit_or, Bool.or_eq_true, Nat.testBit_two_pow, Nat.testBit_two_pow]
  simp [eq_comm]

/-- C1: for gain-scaled roll and pitch demand with `m = max(|roll|, |pitch|) ≥ 1`
the mixer scales both by exactly `1/m`: `_roll_action = roll / m` and
`_pitch_action = pitch / m`. -/
theorem saturated_roll_pitch_scaled_by_inverse (s : State)
    (hm : 1 ≤ max |roll_thrust s| |pitch_thrust s|) :
    (output_armed_stabilizing s)._roll_action
        = roll_thrust s / max |roll_thrust s| |pitch_thrust s| ∧
    (output_armed_stabilizing s)._pitch_action
        = pitch_thrust s / max |roll_thrust s| |pitch_thrust s| := by
  rw [out_roll_action, out_pitch_action, body_rp_scale_of_sat s hm]
  constructor <;> ring

/-- Witness for C1: roll demand 2 and pitch demand -1 at unit gain. -/
theorem saturated_roll_pitch_scaled_by_inverse_witness :
    1 ≤ max |roll_thrust (State.demo 2 (-1) 0 (1/2) 1)| |pitch_thrust (State.demo 2 (-1) 0 (1/2) 1)| ∧
    ((output_armed_stabilizing (State.demo 2 (-1) 0 (1/2) 1))._roll_action
        = roll_thrust (State.demo 2 (-1) 0 (1/2) 1)
          / max |roll_thrust (State.demo 2 (-1) 0 (1/2) 1)| |pitch_thrust (State.demo 2 (-1) 0 (1/2) 1)| ∧
     (output_armed_stabilizing (State.demo 2 (-1) 0 (1/2) 1))._pitch_action
        = pitch_thrust (State.demo 2 (-1) 0 (1/2) 1)
          / max |roll_thrust (State.demo 2 (-1) 0 (1/2) 1)| |pitch_thrust (State.demo 2 (-1) 0 (1/2) 1)|) :=
  have h : 1 ≤ max |roll_thrust (State.demo 2 (-1) 0 (1/2) 1)|
      |pitch_thrust (State.demo 2 (-1) 0 (1/2) 1)| := by
    norm_num [roll_thrust, pitch_thrust, State.demo, State.zero]
  ⟨h, saturated_roll_pitch_scaled_by_inverse _ h⟩

/-- Counterexample to C2 as stated: roll demand exactly 1, pitch 0, unit gain,
flags clear before the pass. Then `rp_thrust_max = 1 ≥ 1`, `rp_scale = 1` is
not below 1, and neither the roll nor the pitch flag is set. -/
theorem unit_rp_max_sets_no_flag :
    1 ≤ max |roll_thrust (State.demo 1 0 0 (1/2) 1)| |pitch_thrust (State.demo 1 0 0 (1/2) 1)| ∧
    (output_armed_stabilizing (State.demo 1 0 0 (1/2) 1)).limit.roll = false ∧
    (output_armed_stabilizing (State.demo 1 0 0 (1/2) 1)).limit.pitch = false := by
  refine ⟨?_, ?_, ?_⟩
  · norm_num [roll_thrust, pitch_thrust, State.demo, State.zero]
  · norm_num [output_armed_stabilizing, output_armed_stabilizing_body, MAX, fabsf,
      constrain_float, State.demo, State.zero, Limit.clear]
  · norm_num [output_armed_stabilizing, output_armed_stabilizing_body, MAX, fabsf,
      constrain_float, State.demo, State.zero, Limit.clear]

/-- C2 (amended): when `rp_max = max(|roll|, |pitch|)` of the gain-scaled demand
is strictly above 1, both the roll and the pitch limit flag are set after the
pass; when `rp_max` is exactly 1 the pass leaves both flags as they were. -/
theorem roll_pitch_flags_set_above_one (s : State) :
    (1 < max |roll_thrust s| |pitch_thrust s| →
      (output_armed_stabilizing s).limit.roll = true ∧
      (output_armed_stabilizing s).limit.pitch = true) ∧
    (max |roll_thrust s| |pitch_thrust s| = 1 →
      (output_armed_stabilizing s).limit.roll = s.limit.roll ∧
      (output_armed_stabilizing s).limit.pitch = s.limit.pitch) := by
  rw [out_limit_roll, out_limit_pitch]
  constructor
  · intro h
    simp [h]
  · intro h
    simp [h]

/-- Witness for C2 (amended): roll demand 2, pitch demand -1, flags clear before. -/
theorem roll_pitch_flags_set_above_one_witness :
    1 < max |roll_thrust (State.demo 2 (-1) 0 (1/2) 1)| |pitch_thrust (State.demo 2 (-1) 0 (1/2) 1)| ∧
    (State.demo 2 (-1) 0 (1/2) 1).limit.roll = false ∧
    (State.demo 2 (-1) 0 (1/2) 1).limit.pitch = false ∧
    (output_armed_stabilizing (State.demo 2 (-1) 0 (1/2) 1)).limit.roll = true ∧
    (output_armed_stabilizing (State.demo 2 (-1) 0 (1/2) 1)).limit.pitch = true :=
  have h : 1 < max |roll_thrust (State.demo 2 (-1) 0 (1/2) 1)|
      |pitch_thrust (State.demo 2 (-1) 0 (1/2) 1)| := by
    norm_num [roll_thrust, pitch_thrust, State.demo, State.zero]
  ⟨h, rfl, rfl, (roll_pitch_flags_set_above_one _).1 h⟩

/-- C3: for the gain-scaled yaw demand `y`: if `|y| > 1` then
`_tail_thrust = _yaw_dir * clamp(1/y, -1, 1)` and the yaw flag is set; if
`|y| ≤ 1` then `_tail_thrust = _yaw_dir * y` and the yaw flag keeps its value.
For `y = 3/2` the output yaw is `2/3` with the flag set, for `y = 1/2` it is
`1/2` and a clear flag stays clear. -/
theorem yaw_reciprocal_clip (s : State) :
    (1 < |yaw_thrust s| →
      (output_armed_stabilizing s)._tail_thrust
          = (s._yaw_dir : ℚ) * max (-1) (min (1 / yaw_thrust s) 1) ∧
      (output_armed_stabilizing s).limit.yaw = true) ∧
    (|yaw_thrust s| ≤ 1 →
      (output_armed_stabilizing s)._tail_thrust = (s._yaw_dir : ℚ) * yaw_thrust s ∧
      (output_armed_stabilizing s).limit.yaw = s.limit.yaw) ∧
    (yaw_thrust s = 3 / 2 →
      (output_armed_stabilizing_body s).1.yaw_thrust = 2 / 3 ∧
      (output_armed_stabilizing s)._tail_thrust = (s._yaw_dir : ℚ) * (2 / 3) ∧
      (output_armed_stabilizing s).limit.yaw = true) ∧
    (yaw_thrust s = 1 / 2 → s.limit.yaw = false →
      (output_armed_stabilizing_body s).1.yaw_thrust = 1 / 2 ∧
      (output_armed_stabilizing s)._tail_thrust = (s._yaw_dir : ℚ) * (1 / 2) ∧
      (output_armed_stabilizing s).limit.yaw = false) := by
  rw [out_tail_thrust, out_limit_yaw, body_yaw_thrust]
  refine ⟨?_, ?_, ?_, ?_⟩
  · intro h
    rw [if_pos h, constrain_float_eq_max_min _ _ _ (by norm_num)]
    simp [h]
  · intro h
    rw [if_neg (not_lt.mpr h)]
    simp [not_lt.mpr h]
  · intro h
    rw [h]
    norm_num [constrain_float, abs_of_pos]
  · intro h hl
    rw [h, hl]
    norm_num [abs_of_pos]

/-- Witness for C3: yaw demand 3/2, and yaw demand 1/2 with a clear flag, both
at unit gain with the normal yaw direction. -/
theorem yaw_reciprocal_clip_witness :
    (yaw_thrust (State.demo 0 0 (3/2) (1/2) 1) = 3 / 2 ∧
     (output_armed_stabilizing_body (State.demo 0 0 (3/2) (1/2) 1)).1.yaw_thrust = 2 / 3 ∧
     (output_armed_stabilizing (State.demo 0 0 (3/2) (1/2) 1))._tail_thrust
       = ((State.demo 0 0 (3/2) (1/2) 1)._yaw_dir : ℚ) * (2 / 3) ∧
     (output_armed_stabilizing (State.demo 0 0 (3/2) (1/2) 1)).limit.yaw = true) ∧
    (yaw_thrust (State.demo 0 0 (1/2) (1/2) 1) = 1 / 2 ∧
     (output_armed_stabilizing_body (State.demo 0 0 (1/2) (1/2) 1)).1.yaw_thrust = 1 / 2 ∧
     (output_armed_stabilizing (State.demo 0 0 (1/2) (1/2) 1))._tail_thrust
       = ((State.demo 0 0 (1/2) (1/2) 1)._yaw_dir : ℚ) * (1 / 2) ∧
     (output_armed_stabilizing (State.demo 0 0 (1/2) (1/2) 1)).limit.yaw = false) :=
  have h1 : yaw_thrust (State.demo 0 0 (3/2) (1/2) 1) = 3 / 2 := by
    norm_num [yaw_thrust, State.demo, State.zero]
  have h2 : yaw_thrust (State.demo 0 0 (1/2) (1/2) 1) = 1 / 2 := by
    norm_num [yaw_thrust, State.demo, State.zero]
  ⟨⟨h1, (yaw_reciprocal_clip _).2.2.1 h1⟩, ⟨h2, (yaw_reciprocal_clip _).2.2.2 h2 rfl⟩⟩

/-- C4: with a ceiling `_throttle_thrust_max ≥ 0` the throttle used by the mixer
is the scaled throttle `t = get_throttle() * gain` clamped to
`[0, _throttle_thrust_max]`; `throttle_lower` is set when `t` is at or below 0
and `throttle_upper` is set when `t` is at or above the ceiling. With
`get_throttle() = -1/5` at gain 1 the clamped throttle is 0 and `throttle_lower`
is set; with `get_throttle() = 6/5` at gain 1 and ceiling 1 the clamped throttle
is 1 and `throttle_upper` is set. -/
theorem throttle_clamped_with_flags (s : State) (hmax : 0 ≤ s._throttle_thrust_max) :
    (output_armed_stabilizing_body s).1.throttle_thrust
        = max 0 (min (throttle_thrust s) s._throttle_thrust_max) ∧
    (throttle_thrust s ≤ 0 → (output_armed_stabilizing s).limit.throttle_lower = true) ∧
    (s._throttle_thrust_max ≤ throttle_thrust s →
      (output_armed_stabilizing s).limit.throttle_upper = true) ∧
    (s.get_throttle = -1 / 5 → s.get_compensation_gain = 1 →
      (output_armed_stabilizing_body s).1.throttle_thrust = 0 ∧
      (output_armed_stabilizing s).limit.throttle_lower = true) ∧
    (s.get_throttle = 6 / 5 → s.get_compensation_gain = 1 → s._throttle_thrust_max = 1 →
      (output_armed_stabilizing_body s).1.throttle_thrust = 1 ∧
      (output_armed_stabilizing s).limit.throttle_upper = true) := by
  have hlow : throttle_thrust s ≤ 0 →
      (output_armed_stabilizing s).limit.throttle_lower = true := by
    intro h
    rw [out_limit_throttle_lower]
    simp [h]
  have hupp : s._throttle_thrust_max ≤ throttle_thrust s →
      (output_armed_stabilizing s).limit.throttle_upper = true := by
    intro h
    rw [out_limit_throttle_upper]
    have : s._throttle_thrust_max ≤ (if throttle_thrust s ≤ 0 then 0 else throttle_thrust s) := by
      split_ifs with h0
      · exact le_trans h h0
      · exact h
    simp [this]
  have hclamp := body_throttle_thrust_eq_clamp s hmax
  refine ⟨hclamp, hlow, hupp, ?_, ?_⟩
  · intro ht hg
    have h0 : throttle_thrust s = -1 / 5 := by rw [throttle_thrust, ht, hg]; norm_num
    refine ⟨?_, hlow (by rw [h0]; norm_num)⟩
    rw [hclamp, h0]
    exact max_eq_left (min_le_of_left_le (by norm_num))
  · intro ht hg hm
    have h0 : throttle_thrust s = 6 / 5 := by rw [throttle_thrust, ht, hg]; norm_num
    refine ⟨?_, hupp (by rw [h0, hm]; norm_num)⟩
    rw [hclamp, h0, hm]
    norm_num

/-- Witness for C4: `get_throttle() = -1/5` and `get_throttle() = 6/5`, both at
unit gain with ceiling 1. -/
theorem throttle_clamped_with_flags_witness :
    0 ≤ (State.demo 0 0 0 (-1/5) 1)._throttle_thrust_max ∧
    0 ≤ (State.demo 0 0 0 (6/5) 1)._throttle_thrust_max ∧
    ((output_armed_stabilizing_body (State.demo 0 0 0 (-1/5) 1)).1.throttle_thrust = 0 ∧
     (output_armed_stabilizing (State.demo 0 0 0 (-1/5) 1)).limit.throttle_lower = true) ∧
    ((output_armed_stabilizing_body (State.demo 0 0 0 (6/5) 1)).1.throttle_thrust = 1 ∧
     (output_armed_stabilizing (State.demo 0 0 0 (6/5) 1)).limit.throttle_upper = true) :=
  have ha : 0 ≤ (State.demo 0 0 0 (-1/5) 1)._throttle_thrust_max := by
    norm_num [State.demo, State.zero]
  have hb : 0 ≤ (State.demo 0 0 0 (6/5) 1)._throttle_thrust_max := by
    norm_num [State.demo, State.zero]
  ⟨ha, hb, (throttle_clamped_with_flags _ ha).2.2.2.1 rfl rfl,
    (throttle_clamped_with_flags _ hb).2.2.2.2 rfl rfl rfl⟩

/-- Counterexample to C5 as stated, at two inputs that both start with cleared
flags and a positive gain. First: zero demand and `get_throttle() = 0`, which
lies within `[0, _throttle_thrust_max] = [0, 1]`; the pass sets
`throttle_lower`. Second: roll demand 9/10 (magnitude below 1) with gain 2 and
throttle strictly inside its bounds; the scaled roll is 9/5 and the pass sets
the roll flag. -/
theorem in_bounds_demand_sets_flags :
    (|(State.demo 0 0 0 0 1)._roll_in + (State.demo 0 0 0 0 1)._roll_in_ff| < 1 ∧
     |(State.demo 0 0 0 0 1)._pitch_in + (State.demo 0 0 0 0 1)._pitch_in_ff| < 1 ∧
     |(State.demo 0 0 0 0 1)._yaw_in + (State.demo 0 0 0 0 1)._yaw_in_ff| < 1 ∧
     0 ≤ throttle_thrust (State.demo 0 0 0 0 1) ∧
     throttle_thrust (State.demo 0 0 0 0 1) ≤ (State.demo 0 0 0 0 1)._throttle_thrust_max ∧
     0 < (State.demo 0 0 0 0 1).get_compensation_gain ∧
     (State.demo 0 0 0 0 1).limit = Limit.clear ∧
     (output_armed_stabilizing (State.demo 0 0 0 0 1)).limit.throttle_lower = true) ∧
    (|(State.demo (9/10) 0 0 (1/4) 2)._roll_in + (State.demo (9/10) 0 0 (1/4) 2)._roll_in_ff| < 1 ∧
     |(State.demo (9/10) 0 0 (1/4) 2)._pitch_in + (State.demo (9/10) 0 0 (1/4) 2)._pitch_in_ff| < 1 ∧
     |(State.demo (9/10) 0 0 (1/4) 2)._yaw_in + (State.demo (9/10) 0 0 (1/4) 2)._yaw_in_ff| < 1 ∧
     0 < throttle_thrust (State.demo (9/10) 0 0 (1/4) 2) ∧
     throttle_thrust (State.demo (9/10) 0 0 (1/4) 2)
       < (State.demo (9/10) 0 0 (1/4) 2)._throttle_thrust_max ∧
     0 < (State.demo (9/10) 0 0 (1/4) 2).get_compensation_gain ∧
     (State.demo (9/10) 0 0 (1/4) 2).limit = Limit.clear ∧
     (output_armed_stabilizing (State.demo (9/10) 0 0 (1/4) 2)).limit.roll = true) := by
  refine ⟨⟨?_, ?_, ?_, ?_, ?_, ?_, rfl, ?_⟩, ⟨?_, ?_, ?_, ?_, ?_, ?_, rfl, ?_⟩⟩
  all_goals
    norm_num [output_armed_stabilizing, output_armed_stabilizing_body, MAX, fabsf,
      constrain_float, throttle_thrust, State.demo, State.zero, Limit.clear, abs_of_pos]

/-- C5 (amended): when the gain-scaled roll, pitch and yaw demand (feed-forward
included) all have magnitude below 1 and the gain-scaled throttle lies strictly
between 0 and `_throttle_thrust_max`, a pass started with all limit flags clear
leaves every limit flag clear, and a second pass with the same inputs yields
the same state as the first. -/
theorem unsaturated_pass_sets_no_flag (s : State)
    (hr : |roll_thrust s| < 1) (hp : |pitch_thrust s| < 1) (hy : |yaw_thrust s| < 1)
    (ht0 : 0 < throttle_thrust s) (ht1 : throttle_thrust s < s._throttle_thrust_max)
    (hl : s.limit = Limit.clear) :
    (output_armed_stabilizing s).limit = Limit.clear ∧
    output_armed_stabilizing (output_armed_stabilizing s) = output_armed_stabilizing s := by
  refine ⟨?_, out_idempotent s⟩
  rw [out_limit_eq, hl]
  have hm : ¬ 1 < max |roll_thrust s| |pitch_thrust s| := not_lt.mpr (max_le hr.le hp.le)
  have hy' : ¬ 1 < |yaw_thrust s| := not_lt.mpr hy.le
  have h0 : ¬ throttle_thrust s ≤ 0 := not_le.mpr ht0
  have h1 : ¬ s._throttle_thrust_max ≤ (if throttle_thrust s ≤ 0 then 0 else throttle_thrust s) := by
    rw [if_neg h0]
    exact not_le.mpr ht1
  simp [Limit.clear, hm, hy', h0, ht1]

/-- Witness for C5 (amended): demand (1/2, -1/4, 1/3), throttle 1/2, unit gain, ceiling 1. -/
theorem unsaturated_pass_sets_no_flag_witness :
    (output_armed_stabilizing (State.demo (1/2) (-1/4) (1/3) (1/2) 1)).limit = Limit.clear ∧
    output_armed_stabilizing (output_armed_stabilizing (State.demo (1/2) (-1/4) (1/3) (1/2) 1))
      = output_armed_stabilizing (State.demo (1/2) (-1/4) (1/3) (1/2) 1) :=
  unsaturated_pass_sets_no_flag (State.demo (1/2) (-1/4) (1/3) (1/2) 1)
    (by norm_num [roll_thrust, State.demo, State.zero, abs_of_pos])
    (by norm_num [pitch_thrust, State.demo, State.zero, abs_of_pos, abs_of_neg])
    (by norm_num [yaw_thrust, State.demo, State.zero, abs_of_pos])
    (by norm_num [throttle_thrust, State.demo, State.zero])
    (by norm_num [throttle_thrust, State.demo, State.zero])
    rfl

/-- Counterexample to C6 as stated: two passes with identical demand (all zero,
throttle 1/2, unit gain, ceiling 1), one started with the yaw flag set and one
with all flags clear. The yaw demand does not saturate, the flag that was set
before the pass is still set after it, and the flags after the two passes
differ. -/
theorem stale_yaw_flag_survives_pass :
    ¬ 1 < |yaw_thrust (State.demo 0 0 0 (1/2) 1)| ∧
    (output_armed_stabilizing
      { State.demo 0 0 0 (1/2) 1 with limit := { Limit.clear with yaw := true } }).limit.yaw
        = true ∧
    (output_armed_stabilizing
      { State.demo 0 0 0 (1/2) 1 with limit := Limit.clear }).limit.yaw = false ∧
    (output_armed_stabilizing
      { State.demo 0 0 0 (1/2) 1 with limit := { Limit.clear with yaw := true } }).limit
      ≠ (output_armed_stabilizing { State.demo 0 0 0 (1/2) 1 with limit := Limit.clear }).limit := by
  have h1 : (output_armed_stabilizing
      { State.demo 0 0 0 (1/2) 1 with limit := { Limit.clear with yaw := true } }).limit.yaw
        = true := by
    norm_num [output_armed_stabilizing, output_armed_stabilizing_body, MAX, fabsf,
      constrain_float, State.demo, State.zero, Limit.clear]
  have h2 : (output_armed_stabilizing
      { State.demo 0 0 0 (1/2) 1 with limit := Limit.clear }).limit.yaw = false := by
    norm_num [output_armed_stabilizing, output_armed_stabilizing_body, MAX, fabsf,
      constrain_float, State.demo, State.zero, Limit.clear]
  refine ⟨?_, h1, h2, ?_⟩
  · norm_num [yaw_thrust, State.demo, State.zero]
  · intro h
    have h3 := congrArg Limit.yaw h
    rw [h1, h2] at h3
    exact Bool.noConfusion h3

/-- C6 (amended): a mixing pass only adds to the limit flags. For every demand
`s` and every initial value `l` of the flags, each flag after the pass is its
value in `l` or-ed with a saturation condition that depends only on demand, gain
and ceiling: `rp_max > 1` for roll and pitch, `|yaw| > 1` for yaw, `t ≤ 0` for
`throttle_lower`, and ceiling `≤ t` (with `t` replaced by 0 when `t ≤ 0`) for
`throttle_upper`. So passes with identical inputs end with the same flags
whenever they start with the same flags, and a flag set before a pass stays
set. -/
theorem limit_flags_accumulate (s : State) (l : Limit) :
    (output_armed_stabilizing { s with limit := l }).limit =
      { roll := l.roll || decide (1 < max |roll_thrust s| |pitch_thrust s|)
        pitch := l.pitch || decide (1 < max |roll_thrust s| |pitch_thrust s|)
        yaw := l.yaw || decide (1 < |yaw_thrust s|)
        throttle_lower := l.throttle_lower || decide (throttle_thrust s ≤ 0)
        throttle_upper := l.throttle_upper
          || decide (s._throttle_thrust_max
                ≤ (if throttle_thrust s ≤ 0 then 0 else throttle_thrust s)) } :=
  out_limit_eq { s with limit := l }

/-- Bound on the mixer outputs over exact rationals, where no product can
overflow: with `_yaw_dir` equal to 1 or -1, the outputs `_roll_action`,
`_pitch_action` and `_tail_thrust` each lie in `[-1, 1]`. The range of `float`
is taken into account in the section on range-enforced floats. -/
theorem mixer_outputs_bounded (s : State) (hdir : s._yaw_dir = 1 ∨ s._yaw_dir = -1) :
    (-1 ≤ (output_armed_stabilizing s)._roll_action ∧
      (output_armed_stabilizing s)._roll_action ≤ 1) ∧
    (-1 ≤ (output_armed_stabilizing s)._pitch_action ∧
      (output_armed_stabilizing s)._pitch_action ≤ 1) ∧
    (-1 ≤ (output_armed_stabilizing s)._tail_thrust ∧
      (output_armed_stabilizing s)._tail_thrust ≤ 1) := by
  refine ⟨abs_le.mp ?_, abs_le.mp ?_, abs_le.mp ?_⟩
  · rw [out_roll_action]
    exact abs_mul_rp_scale_le_one s _ (le_max_left _ _)
  · rw [out_pitch_action]
    exact abs_mul_rp_scale_le_one s _ (le_max_right _ _)
  · rw [out_tail_thrust, abs_mul]
    have hd : |(s._yaw_dir : ℚ)| = 1 := by
      rcases hdir with h | h <;> rw [h] <;> norm_num
    rw [hd, one_mul]
    exact abs_body_yaw_thrust_le_one s

/-- The rational bound at demand (3, -7, -5/2), gain 2 and the reverse yaw direction. -/
theorem mixer_outputs_bounded_witness :
    ({ State.demo 3 (-7) (-5/2) (1/2) 2 with _yaw_dir := -1 }._yaw_dir = 1 ∨
      { State.demo 3 (-7) (-5/2) (1/2) 2 with _yaw_dir := -1 }._yaw_dir = -1) ∧
    (-1 ≤ (output_armed_stabilizing
        { State.demo 3 (-7) (-5/2) (1/2) 2 with _yaw_dir := -1 })._roll_action ∧
      (output_armed_stabilizing
        { State.demo 3 (-7) (-5/2) (1/2) 2 with _yaw_dir := -1 })._roll_action ≤ 1) ∧
    (-1 ≤ (output_armed_stabilizing
        { State.demo 3 (-7) (-5/2) (1/2) 2 with _yaw_dir := -1 })._pitch_action ∧
      (output_armed_stabilizing
        { State.demo 3 (-7) (-5/2) (1/2) 2 with _yaw_dir := -1 })._pitch_action ≤ 1) ∧
    (-1 ≤ (output_armed_stabilizing
        { State.demo 3 (-7) (-5/2) (1/2) 2 with _yaw_dir := -1 })._tail_thrust ∧
      (output_armed_stabilizing
        { State.demo 3 (-7) (-5/2) (1/2) 2 with _yaw_dir := -1 })._tail_thrust ≤ 1) :=
  ⟨Or.inr rfl, mixer_outputs_bounded _ (Or.inr rfl)⟩

/-- C8 (code evaluated): whenever `AP_MOTORS_MOT_5` and `AP_MOTORS_MOT_6` are
valid shift counts and differ from `AP_MOTORS_MOT_1` and `AP_MOTORS_MOT_4`, the
mask that `set_update_rate` passes to `rc_set_freq` has exactly the bits
`AP_MOTORS_MOT_5` and `AP_MOTORS_MOT_6`, so it contains neither the rotor bit
`AP_MOTORS_MOT_1` nor the tail bit `AP_MOTORS_MOT_4` that `get_motor_mask`
reports; the frequency passed is `speed_hz`. -/
theorem set_update_rate_mask_misses_thrust_channels (e : Env) (s : State) (speed_hz : Nat)
    (h5 : e.AP_MOTORS_MOT_5 < 32) (h6 : e.AP_MOTORS_MOT_6 < 32)
    (h15 : e.AP_MOTORS_MOT_1 ≠ e.AP_MOTORS_MOT_5) (h16 : e.AP_MOTORS_MOT_1 ≠ e.AP_MOTORS_MOT_6)
    (h45 : e.AP_MOTORS_MOT_4 ≠ e.AP_MOTORS_MOT_5) (h46 : e.AP_MOTORS_MOT_4 ≠ e.AP_MOTORS_MOT_6) :
    (set_update_rate e s speed_hz).2.2 = speed_hz ∧
    (∀ i, (set_update_rate e s speed_hz).2.1.testBit i = true
        ↔ i = e.AP_MOTORS_MOT_5 ∨ i = e.AP_MOTORS_MOT_6) ∧
    (set_update_rate e s speed_hz).2.1.testBit e.AP_MOTORS_MOT_1 = false ∧
    (set_update_rate e s speed_hz).2.1.testBit e.AP_MOTORS_MOT_4 = false := by
  have hbits : ∀ i, (set_update_rate e s speed_hz).2.1.testBit i = true
      ↔ i = e.AP_MOTORS_MOT_5 ∨ i = e.AP_MOTORS_MOT_6 :=
    fun i => testBit_bit32_or _ _ i h5 h6
  refine ⟨rfl, hbits, ?_, ?_⟩
  · rw [← Bool.not_eq_true, hbits]
    rintro (h | h)
    · exact h15 h
    · exact h16 h
  · rw [← Bool.not_eq_true, hbits]
    rintro (h | h)
    · exact h45 h
    · exact h46 h

/-- Witness for C8 (code evaluated): with the channel numbering 0..5 and a
request of 490 Hz the mask is `0x30`, while the motor mask of `get_motor_mask`
is `0x09`. -/
theorem set_update_rate_mask_misses_thrust_channels_witness :
    (set_update_rate Env.sample State.zero 490).2 = (48, 490) ∧
    get_motor_mask_motor_mask Env.sample = 9 ∧
    (set_update_rate Env.sample State.zero 490).2.1.testBit Env.sample.AP_MOTORS_MOT_1 = false ∧
    (set_update_rate Env.sample State.zero 490).2.1.testBit Env.sample.AP_MOTORS_MOT_4 = false :=
  ⟨by decide, by decide,
    (set_update_rate_mask_misses_thrust_channels Env.sample State.zero 490
      (by decide) (by decide) (by decide) (by decide) (by decide) (by decide)).2.2⟩

/-- C9: in the `SHUT_DOWN` phase `output_to_motors` writes `output_to_pwm(0)` to
the rotor channel `AP_MOTORS_MOT_1` and to the tail channel `AP_MOTORS_MOT_4`
and angle 0 to the pitch channel `AP_MOTORS_MOT_2` and to the roll channel
`AP_MOTORS_MOT_3`, and nothing else; the writes do not depend on the demand, the
mixer outputs or the actuator state. -/
theorem shut_down_writes_zero (e : Env) (s : State)
    (h : s._spool_state = SpoolState.SHUT_DOWN) :
    (output_to_motors e s).2 =
      [Write.rc_write e.AP_MOTORS_MOT_1 (e.output_to_pwm 0),
       Write.rc_write e.AP_MOTORS_MOT_4 (e.output_to_pwm 0),
       Write.rc_write_angle e.AP_MOTORS_MOT_2 0,
       Write.rc_write_angle e.AP_MOTORS_MOT_3 0] := by
  unfold output_to_motors
  rw [h]

/-- Witness for C9: a shut-down state that carries a saturating demand, mixer
outputs from an earlier pass and a non-zero actuator state. -/
theorem shut_down_writes_zero_witness :
    (output_to_motors Env.sample
      { output_armed_stabilizing (State.demo 2 (-1) (3/2) (1/2) 1) with
        _spool_state := SpoolState.SHUT_DOWN, _actuator := fun _ => 1/2 }).2 =
      [Write.rc_write 0 1000, Write.rc_write 3 1000,
       Write.rc_write_angle 1 0, Write.rc_write_angle 2 0] := by
  have h := shut_down_writes_zero Env.sample
    { output_armed_stabilizing (State.demo 2 (-1) (3/2) (1/2) 1) with
      _spool_state := SpoolState.SHUT_DOWN, _actuator := fun _ => 1/2 } rfl
  rw [h]
  simp [Env.sample]

/-- C10: with a positive compensation gain and a ceiling
`_throttle_thrust_max ≥ 0`, the mixer sets `_rotor_thrust` and `_throttle_out`
to `clamp(_throttle_avg_max * gain, T, _throttle_thrust_max) / gain`, where `T`
is the scaled throttle `get_throttle() * gain` clamped to
`[0, _throttle_thrust_max]`; hence
`T ≤ _rotor_thrust * gain ≤ _throttle_thrust_max`. -/
theorem rotor_thrust_is_clamped_average (s : State)
    (hg : 0 < s.get_compensation_gain) (hmax : 0 ≤ s._throttle_thrust_max) :
    (output_armed_stabilizing s)._rotor_thrust
      = max (max 0 (min (throttle_thrust s) s._throttle_thrust_max))
          (min (s._throttle_avg_max * s.get_compensation_gain) s._throttle_thrust_max)
        / s.get_compensation_gain ∧
    (output_armed_stabilizing s)._throttle_out = (output_armed_stabilizing s)._rotor_thrust ∧
    max 0 (min (throttle_thrust s) s._throttle_thrust_max)
      ≤ (output_armed_stabilizing s)._rotor_thrust * s.get_compensation_gain ∧
    (output_armed_stabilizing s)._rotor_thrust * s.get_compensation_gain
      ≤ s._throttle_thrust_max := by
  have hT : max 0 (min (throttle_thrust s) s._throttle_thrust_max) ≤ s._throttle_thrust_max :=
    max_le hmax (min_le_right _ _)
  have hval : (output_armed_stabilizing s)._rotor_thrust
      = max (max 0 (min (throttle_thrust s) s._throttle_thrust_max))
          (min (s._throttle_avg_max * s.get_compensation_gain) s._throttle_thrust_max)
        / s.get_compensation_gain := by
    rw [out_rotor_thrust, out_throttle_out, body_throttle_avg_max,
      body_throttle_thrust_eq_clamp s hmax, constrain_float_eq_max_min _ _ _ hT]
  refine ⟨hval, rfl, ?_, ?_⟩
  · rw [hval, div_mul_cancel₀ _ hg.ne.symm]
    exact le_max_left _ _
  · rw [hval, div_mul_cancel₀ _ hg.ne.symm]
    exact max_le hT (min_le_right _ _)

/-- Witness for C10: throttle 1/2, running bound `_throttle_avg_max = 3/4`, gain 2
and ceiling 1: the scaled throttle is clamped to 1 and `_rotor_thrust = 1/2`. -/
theorem rotor_thrust_is_clamped_average_witness :
    (output_armed_stabilizing
      { State.demo 0 0 0 (1/2) 2 with _throttle_avg_max := 3/4 })._rotor_thrust = 1 / 2 := by
  have h := (rotor_thrust_is_clamped_average
    { State.demo 0 0 0 (1/2) 2 with _throttle_avg_max := 3/4 }
    (by norm_num [State.demo, State.zero]) (by norm_num [State.demo, State.zero])).1
  rw [h]
  norm_num [throttle_thrust, State.demo, State.zero]

/-- C11: in the `GROUND_IDLE` phase, with distinct rotor and tail channels,
`output_to_motors` writes angle 0 to both gimbal channels, replaces the rotor
and the tail actuator state each by `set_actuator_with_slew` of its old value
toward `actuator_spin_up_to_ground_idle()`, leaves all other state as it was,
and writes `output_to_pwm` of each new actuator state to its thrust channel.
Neither the writes nor the new actuator state depend on `_roll_action`,
`_pitch_action`, `_rotor_thrust` or `_tail_thrust`. -/
theorem ground_idle_slews_to_idle (e : Env) (s : State)
    (h : s._spool_state = SpoolState.GROUND_IDLE)
    (hne : e.AP_MOTORS_MOT_1 ≠ e.AP_MOTORS_MOT_4) :
    (output_to_motors e s).2 =
      [Write.rc_write_angle e.AP_MOTORS_MOT_2 0,
       Write.rc_write_angle e.AP_MOTORS_MOT_3 0,
       Write.rc_write e.AP_MOTORS_MOT_1 (e.output_to_pwm
         (e.set_actuator_with_slew (s._actuator e.AP_MOTORS_MOT_1)
           e.actuator_spin_up_to_ground_idle)),
       Write.rc_write e.AP_MOTORS_MOT_4 (e.output_to_pwm
         (e.set_actuator_with_slew (s._actuator e.AP_MOTORS_MOT_4)
           e.actuator_spin_up_to_ground_idle))] ∧
    (output_to_motors e s).1 =
      { s with
        _actuator := (Function.update
            (Function.update s._actuator e.AP_MOTORS_MOT_1
              (e.set_actuator_with_slew (s._actuator e.AP_MOTORS_MOT_1)
                e.actuator_spin_up_to_ground_idle))
            e.AP_MOTORS_MOT_4
            (e.set_actuator_with_slew (s._actuator e.AP_MOTORS_MOT_4)
              e.actuator_spin_up_to_ground_idle)) } ∧
    (∀ ra pa rt tt : ℚ,
      (output_to_motors e { s with _roll_action := ra, _pitch_action := pa,
                                   _rotor_thrust := rt, _tail_thrust := tt }).2
        = (output_to_motors e s).2 ∧
      (output_to_motors e { s with _roll_action := ra, _pitch_action := pa,
                                   _rotor_thrust := rt, _tail_thrust := tt }).1._actuator
        = (output_to_motors e s).1._actuator) := by
  have h41 : e.AP_MOTORS_MOT_4 ≠ e.AP_MOTORS_MOT_1 := fun hh => hne hh.symm
  refine ⟨?_, ?_, ?_⟩
  · unfold output_to_motors
    rw [h]
    simp [Function.update_noteq h41, Function.update_noteq hne]
  · unfold output_to_motors
    rw [h]
    simp [Function.update_noteq h41]
  · intro ra pa rt tt
    unfold output_to_motors
    simp only [h]
    constructor <;> trivial

/-- Witness for C11: the slewing sample environment, actuator state 1/2 on every
channel and mixer outputs left by a saturating pass. Both thrust channels move
from 1/2 to 2/5 and the written signal is 1400. -/
theorem ground_idle_slews_to_idle_witness :
    (output_to_motors Env.slewing
      { output_armed_stabilizing (State.demo 2 (-1) (3/2) (1/2) 1) with
        _spool_state := SpoolState.GROUND_IDLE, _actuator := fun _ => 1/2 }).2 =
      [Write.rc_write_angle 1 0, Write.rc_write_angle 2 0,
       Write.rc_write 0 1400, Write.rc_write 3 1400] := by
  have h := (ground_idle_slews_to_idle Env.slewing
    { output_armed_stabilizing (State.demo 2 (-1) (3/2) (1/2) 1) with
      _spool_state := SpoolState.GROUND_IDLE, _actuator := fun _ => 1/2 } rfl (by decide)).1
  rw [h]
  norm_num [Env.slewing, Env.sample]

/-- C12: in each of the phases `SPOOLING_UP`, `THROTTLE_UNLIMITED` and
`SPOOLING_DOWN`, with distinct rotor and tail channels, `output_to_motors` does
the same thing: it writes `_pitch_action * AP_MOTORS_COAX_SERVO_INPUT_RANGE` and
`_roll_action * AP_MOTORS_COAX_SERVO_INPUT_RANGE` directly to the pitch and roll
gimbal channels, replaces the rotor actuator state by `set_actuator_with_slew`
toward `thrust_to_actuator(_rotor_thrust)` and the tail actuator state by
`set_actuator_with_slew` toward `thrust_to_actuator(_tail_thrust)`, leaves all
other state as it was, and writes `output_to_pwm` of each new actuator state to
its thrust channel. -/
theorem spooling_phases_output_mixed_thrust (e : Env) (s : State)
    (h : s._spool_state = SpoolState.SPOOLING_UP ∨
         s._spool_state = SpoolState.THROTTLE_UNLIMITED ∨
         s._spool_state = SpoolState.SPOOLING_DOWN)
    (hne : e.AP_MOTORS_MOT_1 ≠ e.AP_MOTORS_MOT_4) :
    (output_to_motors e s).2 =
      [Write.rc_write_angle e.AP_MOTORS_MOT_2
         (s._pitch_action * e.AP_MOTORS_COAX_SERVO_INPUT_RANGE),
       Write.rc_write_angle e.AP_MOTORS_MOT_3
         (s._roll_action * e.AP_MOTORS_COAX_SERVO_INPUT_RANGE),
       Write.rc_write e.AP_MOTORS_MOT_1 (e.output_to_pwm
         (e.set_actuator_with_slew (s._actuator e.AP_MOTORS_MOT_1)
           (e.thrust_to_actuator s._rotor_thrust))),
       Write.rc_write e.AP_MOTORS_MOT_4 (e.output_to_pwm
         (e.set_actuator_with_slew (s._actuator e.AP_MOTORS_MOT_4)
           (e.thrust_to_actuator s._tail_thrust)))] ∧
    (output_to_motors e s).1 =
      { s with
        _actuator := (Function.update
            (Function.update s._actuator e.AP_MOTORS_MOT_1
              (e.set_actuator_with_slew (s._actuator e.AP_MOTORS_MOT_1)
                (e.thrust_to_actuator s._rotor_thrust)))
            e.AP_MOTORS_MOT_4
            (e.set_actuator_with_slew (s._actuator e.AP_MOTORS_MOT_4)
              (e.thrust_to_actuator s._tail_thrust))) } := by
  have h41 : e.AP_MOTORS_MOT_4 ≠ e.AP_MOTORS_MOT_1 := fun hh => hne hh.symm
  rcases h with h | h | h
  all_goals
    constructor
    · unfold output_to_motors
      rw [h]
      simp [Function.update_noteq h41, Function.update_noteq hne]
    · unfold output_to_motors
      rw [h]
      simp [Function.update_noteq h41]

/-- Witness for C12: the slewing sample environment in each of the three phases,
actuator state 0 on every channel, after a pass with demand (2, -1, 1/2),
throttle 1/2 and running bound 3/4. The three phases produce the same writes. -/
theorem spooling_phases_output_mixed_thrust_witness :
    (output_to_motors Env.slewing
      { output_armed_stabilizing
          { State.demo 2 (-1) (1/2) (1/2) 1 with _throttle_avg_max := 3/4 } with
        _spool_state := SpoolState.SPOOLING_UP }).2 =
      [Write.rc_write_angle 1 (-2250), Write.rc_write_angle 2 4500,
       Write.rc_write 0 1100, Write.rc_write 3 1100] ∧
    (output_to_motors Env.slewing
      { output_armed_stabilizing
          { State.demo 2 (-1) (1/2) (1/2) 1 with _throttle_avg_max := 3/4 } with
        _spool_state := SpoolState.THROTTLE_UNLIMITED }).2 =
      [Write.rc_write_angle 1 (-2250), Write.rc_write_angle 2 4500,
       Write.rc_write 0 1100, Write.rc_write 3 1100] ∧
    (output_to_motors Env.slewing
      { output_armed_stabilizing
          { State.demo 2 (-1) (1/2) (1/2) 1 with _throttle_avg_max := 3/4 } with
        _spool_state := SpoolState.SPOOLING_DOWN }).2 =
      [Write.rc_write_angle 1 (-2250), Write.rc_write_angle 2 4500,
       Write.rc_write 0 1100, Write.rc_write 3 1100] := by
  have h1 := (spooling_phases_output_mixed_thrust Env.slewing
    { output_armed_stabilizing
        { State.demo 2 (-1) (1/2) (1/2) 1 with _throttle_avg_max := 3/4 } with
      _spool_state := SpoolState.SPOOLING_UP } (Or.inl rfl) (by decide)).1
  have h2 := (spooling_phases_output_mixed_thrust Env.slewing
    { output_armed_stabilizing
        { State.demo 2 (-1) (1/2) (1/2) 1 with _throttle_avg_max := 3/4 } with
      _spool_state := SpoolState.THROTTLE_UNLIMITED } (Or.inr (Or.inl rfl)) (by decide)).1
  have h3 := (spooling_phases_output_mixed_thrust Env.slewing
    { output_armed_stabilizing
        { State.demo 2 (-1) (1/2) (1/2) 1 with _throttle_avg_max := 3/4 } with
      _spool_state := SpoolState.SPOOLING_DOWN } (Or.inr (Or.inr rfl)) (by decide)).1
  rw [h1, h2, h3]
  norm_num [Env.slewing, Env.sample, output_armed_stabilizing, output_armed_stabilizing_body,
    MAX, fabsf, constrain_float, State.demo, State.zero, abs_of_pos]

/-- C13: for every frame class and frame type, `init` and
`set_frame_class_and_type` each record initialised-ok as true when the frame
class is `MOTOR_FRAME_PULSING` and as false otherwise; the frame type plays no
part. -/
theorem init_ok_iff_frame_class_pulsing (e : Env) (s : State) (frame_class frame_type : Nat) :
    ((init e s frame_class frame_type).1.initialised_ok = true
      ↔ frame_class = e.MOTOR_FRAME_PULSING) ∧
    ((init e s frame_class frame_type).1.initialised_ok = false
      ↔ frame_class ≠ e.MOTOR_FRAME_PULSING) ∧
    ((set_frame_class_and_type e s frame_class frame_type).initialised_ok = true
      ↔ frame_class = e.MOTOR_FRAME_PULSING) ∧
    ((set_frame_class_and_type e s frame_class frame_type).initialised_ok = false
      ↔ frame_class ≠ e.MOTOR_FRAME_PULSING) ∧
    (∀ other_type : Nat,
      (init e s frame_class other_type).1.initialised_ok
        = (init e s frame_class frame_type).1.initialised_ok ∧
      (set_frame_class_and_type e s frame_class other_type).initialised_ok
        = (set_frame_class_and_type e s frame_class frame_type).initialised_ok) := by
  refine ⟨?_, ?_, ?_, ?_, ?_⟩
  · simp [init]
  · simp [init]
  · simp [set_frame_class_and_type]
  · simp [set_frame_class_and_type]
  · intro other_type
    exact ⟨rfl, rfl⟩

/-- C14: for every `pwm` the call `_output_test_seq(motor_seq, pwm)` performs
exactly one write, of the raw value `pwm`, to `AP_MOTORS_MOT_1`,
`AP_MOTORS_MOT_2`, `AP_MOTORS_MOT_3` or `AP_MOTORS_MOT_4` for `motor_seq` 1, 2, 3
or 4, and no write for any other `motor_seq`; the object state, whatever its
spool phase and demand, is returned unchanged, so neither the actuator state
nor the limit flags change. -/
theorem output_test_seq_writes_raw_pwm (e : Env) (s : State) (pwm : ℤ) :
    (_output_test_seq e s 1 pwm).2 = [Write.rc_write e.AP_MOTORS_MOT_1 pwm] ∧
    (_output_test_seq e s 2 pwm).2 = [Write.rc_write e.AP_MOTORS_MOT_2 pwm] ∧
    (_output_test_seq e s 3 pwm).2 = [Write.rc_write e.AP_MOTORS_MOT_3 pwm] ∧
    (_output_test_seq e s 4 pwm).2 = [Write.rc_write e.AP_MOTORS_MOT_4 pwm] ∧
    (∀ motor_seq : Nat, motor_seq = 0 ∨ 5 ≤ motor_seq →
      (_output_test_seq e s motor_seq pwm).2 = []) ∧
    (∀ motor_seq : Nat, (_output_test_seq e s motor_seq pwm).1 = s) := by
  refine ⟨rfl, rfl, rfl, rfl, ?_, ?_⟩
  · intro motor_seq hm
    rcases hm with h0 | h5
    · rw [h0]; rfl
    · obtain ⟨k, rfl⟩ := Nat.exists_eq_add_of_le h5
      rw [Nat.add_comm]
      rfl
  · intro motor_seq
    unfold _output_test_seq
    split <;> rfl

/-- Witness for C14: sequence number 7 with a raw value of 1500 in the
throttle-unlimited phase writes nothing and returns the state unchanged. -/
theorem output_test_seq_writes_raw_pwm_witness :
    (_output_test_seq Env.sample
      { State.demo 2 (-1) (3/2) (1/2) 1 with _spool_state := SpoolState.THROTTLE_UNLIMITED }
      7 1500).2 = [] :=
  (output_test_seq_writes_raw_pwm Env.sample
    { State.demo 2 (-1) (3/2) (1/2) 1 with _spool_state := SpoolState.THROTTLE_UNLIMITED }
    1500).2.2.2.2.1 7 (Or.inr (by decide))

/-- C15: the parameters `_rotor_yaw_ff` and `_gyro_ff_gain` and the reading of
`ahrs.get_gyro_latest()` do not affect the mixer: two passes whose inputs differ
only in these three values produce the same `_roll_action`, `_pitch_action`,
`_rotor_thrust`, `_tail_thrust`, `_throttle_out` and the same limit flags. -/
theorem feed_forward_parameters_unused (s : State) (rotor_yaw_ff gyro_ff_gain : ℚ)
    (gyro : ℚ × ℚ × ℚ) :
    (output_armed_stabilizing
        (s.with_feed_forward rotor_yaw_ff gyro_ff_gain gyro))._roll_action
      = (output_armed_stabilizing s)._roll_action ∧
    (output_armed_stabilizing
        (s.with_feed_forward rotor_yaw_ff gyro_ff_gain gyro))._pitch_action
      = (output_armed_stabilizing s)._pitch_action ∧
    (output_armed_stabilizing
        (s.with_feed_forward rotor_yaw_ff gyro_ff_gain gyro))._rotor_thrust
      = (output_armed_stabilizing s)._rotor_thrust ∧
    (output_armed_stabilizing
        (s.with_feed_forward rotor_yaw_ff gyro_ff_gain gyro))._tail_thrust
      = (output_armed_stabilizing s)._tail_thrust ∧
    (output_armed_stabilizing
        (s.with_feed_forward rotor_yaw_ff gyro_ff_gain gyro))._throttle_out
      = (output_armed_stabilizing s)._throttle_out ∧
    (output_armed_stabilizing
        (s.with_feed_forward rotor_yaw_ff gyro_ff_gain gyro)).limit
      = (output_armed_stabilizing s).limit :=
  ⟨rfl, rfl, rfl, rfl, rfl, rfl⟩

/-- C16: `get_motor_mask` returns `motor_mask_to_srv_channel_mask` of the motor
mask, or-ed with the mask reported by the parent class. With valid shift counts
the motor mask has exactly the bits `AP_MOTORS_MOT_1` and `AP_MOTORS_MOT_4`.
Every bit of the parent mask and every bit of the mapped motor mask is in the
result. The result is a function of the channel macros and the two parent-class
collaborators alone: it reads no demand, spool phase, actuator state or limit
flag. -/
theorem get_motor_mask_is_thrust_channels_or_parent (e : Env)
    (h1 : e.AP_MOTORS_MOT_1 < 32) (h4 : e.AP_MOTORS_MOT_4 < 32) :
    get_motor_mask e
      = e.motor_mask_to_srv_channel_mask (bit32 e.AP_MOTORS_MOT_1 ||| bit32 e.AP_MOTORS_MOT_4)
        ||| e.parent_get_motor_mask ∧
    (∀ i, (bit32 e.AP_MOTORS_MOT_1 ||| bit32 e.AP_MOTORS_MOT_4).testBit i = true
        ↔ i = e.AP_MOTORS_MOT_1 ∨ i = e.AP_MOTORS_MOT_4) ∧
    (∀ i, e.parent_get_motor_mask.testBit i = true → (get_motor_mask e).testBit i = true) ∧
    (∀ i, (e.motor_mask_to_srv_channel_mask
            (bit32 e.AP_MOTORS_MOT_1 ||| bit32 e.AP_MOTORS_MOT_4)).testBit i = true →
          (get_motor_mask e).testBit i = true) := by
  refine ⟨rfl, fun i => testBit_bit32_or _ _ i h1 h4, ?_, ?_⟩
  · intro i hi
    unfold get_motor_mask
    simp [Nat.testBit_or, hi]
  · intro i hi
    unfold get_motor_mask get_motor_mask_motor_mask
    simp [Nat.testBit_or, hi]

/-- Witness for C16: with the channel numbering 0..5, the identity as channel
mapping and a parent mask of `0x40`, the result is `0x49`. -/
theorem get_motor_mask_is_thrust_channels_or_parent_witness :
    get_motor_mask { Env.sample with parent_get_motor_mask := 64 } = 73 := by
  have h := (get_motor_mask_is_thrust_channels_or_parent
    { Env.sample with parent_get_motor_mask := 64 } (by decide) (by decide)).1
  rw [h]
  decide

/-- C17: when the roll and the pitch limit flag are equal before a pass, they
are equal after it: the pass sets the roll flag exactly when it sets the pitch
flag. -/
theorem roll_pitch_flags_stay_equal (s : State) (h : s.limit.roll = s.limit.pitch) :
    (output_armed_stabilizing s).limit.roll = (output_armed_stabilizing s).limit.pitch := by
  rw [out_limit_roll, out_limit_pitch, h]

/-- Witness for C17: roll demand 2, pitch demand -1, flags clear before the pass;
both flags are set after it. -/
theorem roll_pitch_flags_stay_equal_witness :
    (State.demo 2 (-1) 0 (1/2) 1).limit.roll = (State.demo 2 (-1) 0 (1/2) 1).limit.pitch ∧
    (output_armed_stabilizing (State.demo 2 (-1) 0 (1/2) 1)).limit.roll
      = (output_armed_stabilizing (State.demo 2 (-1) 0 (1/2) 1)).limit.pitch :=
  ⟨rfl, roll_pitch_flags_stay_equal _ rfl⟩

/-- C20: in the `SHUT_DOWN` phase `output_to_motors` leaves the object state,
and with it `_actuator[AP_MOTORS_MOT_1]` and `_actuator[AP_MOTORS_MOT_4]`, as it
was; they are not reset to 0. With distinct rotor and tail channels, a
`GROUND_IDLE` tick that follows therefore slews each of them from its value
before the shut-down tick. -/
theorem shut_down_keeps_actuator_state (e : Env) (s : State)
    (h : s._spool_state = SpoolState.SHUT_DOWN)
    (hne : e.AP_MOTORS_MOT_1 ≠ e.AP_MOTORS_MOT_4) :
    (output_to_motors e s).1 = s ∧
    (output_to_motors e s).1._actuator e.AP_MOTORS_MOT_1 = s._actuator e.AP_MOTORS_MOT_1 ∧
    (output_to_motors e s).1._actuator e.AP_MOTORS_MOT_4 = s._actuator e.AP_MOTORS_MOT_4 ∧
    (output_to_motors e
        { (output_to_motors e s).1 with _spool_state := SpoolState.GROUND_IDLE }).1._actuator
        e.AP_MOTORS_MOT_1
      = e.set_actuator_with_slew (s._actuator e.AP_MOTORS_MOT_1)
          e.actuator_spin_up_to_ground_idle ∧
    (output_to_motors e
        { (output_to_motors e s).1 with _spool_state := SpoolState.GROUND_IDLE }).1._actuator
        e.AP_MOTORS_MOT_4
      = e.set_actuator_with_slew (s._actuator e.AP_MOTORS_MOT_4)
          e.actuator_spin_up_to_ground_idle := by
  have h41 : e.AP_MOTORS_MOT_4 ≠ e.AP_MOTORS_MOT_1 := fun hh => hne hh.symm
  have hs : (output_to_motors e s).1 = s := by
    unfold output_to_motors
    rw [h]
  rw [hs]
  refine ⟨rfl, rfl, rfl, ?_, ?_⟩
  · simp [output_to_motors, Function.update_noteq hne]
  · simp [output_to_motors, Function.update_noteq h41]

/-- Witness for C20: the slewing sample environment with actuator state 1/2 on
every channel. The shut-down tick keeps 1/2, and the ground-idle tick after it
yields 2/5 (one step down from 1/2), not 1/10 (one step up from 0). -/
theorem shut_down_keeps_actuator_state_witness :
    (output_to_motors Env.slewing
      { State.zero with _actuator := fun _ => 1/2 }).1._actuator 0 = 1 / 2 ∧
    (output_to_motors Env.slewing
        { (output_to_motors Env.slewing { State.zero with _actuator := fun _ => 1/2 }).1 with
          _spool_state := SpoolState.GROUND_IDLE }).1._actuator 0 = 2 / 5 ∧
    Env.slewing.set_actuator_with_slew 0 Env.slewing.actuator_spin_up_to_ground_idle
      = 1 / 10 := by
  have h := shut_down_keeps_actuator_state Env.slewing
    { State.zero with _actuator := fun _ => 1/2 } rfl (by decide)
  refine ⟨h.2.1, ?_, ?_⟩
  · have h4 := h.2.2.2.1
    simp only [Env.slewing, Env.sample] at h4 ⊢
    rw [h4]
    norm_num
  · norm_num [Env.slewing, Env.sample]

/-! ## The bound on the mixer outputs over range-enforced floats -/

end AP_MotorsPulsing
